import Mathlib

/-!
Shallow embedding of `src/calendar_parser.py` (functions `parse_calendar` and
`parse_multiple_calendars`) from the ai-calendar repository.

Modelling conventions:
* An instant is an `Int`: seconds since the Unix epoch, UTC.  Python
  timezone-aware datetimes compare, hash and subtract by their UTC instant, so
  an aware datetime is represented by its instant alone.
* A naive datetime is represented by its wall-clock seconds (`Int`), also
  counted from the epoch as if the wall clock were UTC.
* `PyDateTime` distinguishes naive from aware values, because the code branches
  on `tzinfo is None`, and because Python dict lookups never equate a naive
  datetime with an aware one.
* A timezone gives the UTC offset both as a function of the instant
  (for `astimezone`) and as a function of the wall clock (for `pytz.localize`,
  which picks the offset from the wall time).  `datetime + timedelta` adds to
  the wall fields; for a pytz-localized datetime the attached offset is fixed,
  so the sum's instant is the instant plus the delta, which is how addition is
  modelled on aware values.
* The recurrence grammar is delegated by the code to `dateutil.rrulestr`; the
  spec declares the full grammar out of scope.  Only `FREQ=DAILY` (the shape
  exercised by the spec's testable properties) is modelled: `rrulestr` with an
  aware UTC `dtstart` and `between(a, b, inc=True)` yields
  `dtstart + k·86400 s` for every natural `k` with the result inside `[a, b]`.
* Reading the ICS file is external; a source document is `Except String Cal`,
  where `.error` stands for an unreadable file (the code catches those and
  returns `[]`) and `Cal` is the decoded calendar.  The timezone database
  (`pytz.timezone`) is a partial map from names; an unknown name raises
  `UnknownTimeZoneError`, modelled as `Except.error`: the code's
  `except ValueError` around the window setup does not catch it (it is a
  `KeyError` subclass), so it propagates out of `parse_calendar`.
* Formatted display strings are presentation-only and are not modelled; the
  display-zone conversion itself is kept (`startLocal`/`endLocal` wall times).
-/

namespace AICal

/-- A timezone: UTC offset in seconds, as a function of the instant (used by
`astimezone`) and as a function of the local wall time (used by
`pytz.localize`, which chooses the offset from the wall clock). -/
structure Timezone where
  offsetAtInstant : Int → Int
  offsetAtWall : Int → Int

/-- Attach a zone to a naive wall time (`pytz.timezone(z).localize(dt)`):
the resulting instant is the wall time minus the zone's offset at that wall
time. -/
def Timezone.localize (tz : Timezone) (w : Int) : Int :=
  w - tz.offsetAtWall w

/-- Wall-clock reading of an instant in a zone (`dt.astimezone(tz)` followed by
reading the local fields). -/
def Timezone.toWall (tz : Timezone) (i : Int) : Int :=
  i + tz.offsetAtInstant i

/-- The UTC zone. -/
def utcTz : Timezone := ⟨fun _ => 0, fun _ => 0⟩

/-- A Python `datetime`: either naive (wall-clock seconds, no tzinfo) or aware
(a UTC instant). -/
inductive PyDateTime where
  | naive (wall : Int)
  | aware (instant : Int)
deriving DecidableEq, Repr

/-- Python `datetime.__eq__`, as used by dict key lookup: aware values compare
by instant, naive values by wall fields, and a naive value never equals an
aware one. -/
def dtEq : PyDateTime → PyDateTime → Bool
  | .naive a, .naive b => a = b
  | .aware a, .aware b => a = b
  | _, _ => false

/-- Lines 125-126 / 183-186 / 227-230 / 283-286: localize a datetime to the
calendar zone when it is naive, keep its instant when it is aware. -/
def localizeIfNaive (tz : Timezone) : PyDateTime → Int
  | .naive w => tz.localize w
  | .aware i => i

/-- `datetime + timedelta`: adds to the wall fields of a naive value; on an
aware (fixed-offset pytz) value the instant moves by the delta. -/
def pyAddSeconds : PyDateTime → Int → PyDateTime
  | .naive w, d => .naive (w + d)
  | .aware i, d => .aware (i + d)

/-- Recurrence rules, as far as the code's claims exercise them.  The full
RFC5545 grammar is delegated to `dateutil`; the spec's testable properties use
`FREQ=DAILY`. -/
inductive RRule where
  | daily
deriving DecidableEq, Repr

/-- `rrulestr("FREQ=DAILY", dtstart=seed).between(a, b, inc=True)` for an
aware UTC seed: the instants `seed + 86400·k` (`k : ℕ`) lying in `[a, b]`,
in ascending order.  The generating range is cut off at an index provably past
`b`. -/
def dailyBetween (seed a b : Int) : List Int :=
  ((List.range ((b - seed).toNat / 86400 + 1)).map
      (fun (k : ℕ) => seed + 86400 * (k : Int))).filter
    (fun t => a ≤ t && t ≤ b)

/-- Dispatch a parsed rule to its evaluator (line 205: `rrulestr(...)`,
line 210: `rule.between(window_start_utc, window_end_utc, inc=True)`). -/
def ruleBetween : RRule → Int → Int → Int → List Int
  | .daily, seed, a, b => dailyBetween seed a b

/-- A decoded VEVENT component, with the properties the code reads.
`duration` is the DURATION property in seconds.  Date-only DTSTART values are
already represented as naive midnights (the code's
`datetime.combine(d, time(0, 0))`). -/
structure VComponent where
  summary : Option String
  uid : String
  dtstart : Option PyDateTime
  dtend : Option PyDateTime
  duration : Option Int
  rrule : Option RRule
  recurrenceId : Option PyDateTime
  exdates : List PyDateTime
deriving DecidableEq, Repr

/-- A decoded calendar document: the optional X-WR-TIMEZONE property and the
VEVENT components in document order. -/
structure Cal where
  xwrTimezone : Option String
  events : List VComponent
deriving DecidableEq, Repr

/-- The timezone database (`pytz.timezone`): `none` for a name it does not
know, in which case the library raises `UnknownTimeZoneError`. -/
def TZDB := String → Option Timezone

/-- One output event dictionary (presentation strings omitted; `startLocal` /
`endLocal` are the display-zone wall times of `start_local`/`end_local`).
`calendarName` is stamped by `parse_multiple_calendars` and is `""` before
that. -/
structure Occ where
  summary : String
  startUtc : Int
  endUtc : Int
  startLocal : Int
  endLocal : Int
  durationMinutes : Int
  isRecurring : Bool
  isModified : Bool
  isSingle : Bool
  calendarName : String
deriving DecidableEq, Repr

/-- First-pass start/end of a component (lines 115-142): localize DTSTART,
then DTEND if present (localized), else DTSTART + DURATION (instant
arithmetic, DTSTART being aware by then), else DTSTART + 1 hour.  `none` when
DTSTART is missing (line 117-118: the component is skipped). -/
def p1span (calTz : Timezone) (c : VComponent) : Option (Int × Int) :=
  match c.dtstart with
  | none => none
  | some ds0 =>
    let s := localizeIfNaive calTz ds0
    let e := match c.dtend with
      | some de => localizeIfNaive calTz de
      | none => match c.duration with
        | some d => s + d
        | none => s + 3600
    some (s, e)

/-- Second-pass start/end of a component, shared by the recurring pass
(lines 177-186), the override branch (lines 222-230) and the standalone output
pass (lines 277-286): DTEND if present, else the raw DTSTART plus 1 hour
(wall-clock addition when DTSTART is naive), each localized if naive.  The
DURATION property is not consulted on these paths. -/
def p2span (calTz : Timezone) (c : VComponent) : Option (Int × Int) :=
  match c.dtstart with
  | none => none
  | some ds0 =>
    let eRaw := match c.dtend with
      | some de => de
      | none => pyAddSeconds ds0 3600
    some (localizeIfNaive calTz ds0, localizeIfNaive calTz eRaw)

/-- Line 158-160: the three-way window test for non-recurring events. -/
def inWindow (ws we s e : Int) : Bool :=
  (ws ≤ s && s < we) || (ws ≤ e && e < we) || (s ≤ ws && we ≤ e)

/-- The first-pass state (lines 102-104): `recurring_events` (uid → component,
Python dict in insertion order), `modifications` (uid × recurrence-id →
component) and `single_events`. -/
structure Pass1State where
  recurring : List (String × VComponent)
  mods : List (String × PyDateTime × VComponent)
  singles : List VComponent
deriving DecidableEq, Repr

/-- Python dict assignment `d[k] = v`: replace in place when the key is
present, append otherwise. -/
def updateAssoc (l : List (String × VComponent)) (k : String) (v : VComponent) :
    List (String × VComponent) :=
  if l.any (fun e => e.1 = k) then
    l.map (fun e => if e.1 = k then (k, v) else e)
  else l ++ [(k, v)]

/-- `modifications[uid][recurrence_id.dt] = component` (lines 150-152): the
outer key is the uid, the inner key the raw recurrence-id datetime, compared
with Python datetime equality. -/
def updateMods (l : List (String × PyDateTime × VComponent)) (u : String)
    (k : PyDateTime) (v : VComponent) : List (String × PyDateTime × VComponent) :=
  if l.any (fun e => e.1 = u && dtEq e.2.1 k) then
    l.map (fun e => if e.1 = u && dtEq e.2.1 k then (u, k, v) else e)
  else l ++ [(u, k, v)]

/-- `modifications.get(uid, {}).get(key)` (line 219). -/
def lookupMods (l : List (String × PyDateTime × VComponent)) (u : String)
    (k : PyDateTime) : Option VComponent :=
  (l.find? (fun e => e.1 = u && dtEq e.2.1 k)).map (fun e => e.2.2)

/-- Whether the first pass keeps a component in `single_events`
(lines 156-161): no RRULE, a DTSTART, and the three-way window test on the
first-pass span. -/
def standaloneKeep (calTz : Timezone) (ws we : Int) (c : VComponent) : Bool :=
  c.rrule.isNone &&
    match p1span calTz c with
    | none => false
    | some (s, e) => inWindow ws we s e

/-- One step of the first pass (lines 106-166): skip a component without
DTSTART; with an RRULE, file it under `modifications` when it also carries a
RECURRENCE-ID and under `recurring_events` otherwise; without an RRULE, keep
it as a single event when the window test passes. -/
def classify1 (calTz : Timezone) (ws we : Int) (st : Pass1State)
    (c : VComponent) : Pass1State :=
  match p1span calTz c with
  | none => st
  | some (s, e) =>
    match c.rrule with
    | some _ =>
      match c.recurrenceId with
      | some rid => { st with mods := updateMods st.mods c.uid rid c }
      | none => { st with recurring := updateAssoc st.recurring c.uid c }
    | none =>
      if inWindow ws we s e then { st with singles := st.singles ++ [c] }
      else st

/-- The first pass, folded over the components in document order. -/
def pass1Go (calTz : Timezone) (ws we : Int) (st : Pass1State) :
    List VComponent → Pass1State
  | [] => st
  | c :: cs => pass1Go calTz ws we (classify1 calTz ws we st c) cs

/-- The complete first pass from the empty state. -/
def pass1 (calTz : Timezone) (ws we : Int) (comps : List VComponent) :
    Pass1State :=
  pass1Go calTz ws we ⟨[], [], []⟩ comps

/-- Line 215's exception filter: keep an occurrence unless some (UTC)
exception date is strictly within 60 seconds of it
(`abs((occurrence - exdate).total_seconds()) < 60`). -/
def exceptionFilter (exs : List Int) (occs : List Int) : List Int :=
  occs.filter (fun o => ! exs.any (fun x => (o - x).natAbs < 60))

/-- Lines 218-266, one surviving occurrence instant: look the override up by
`(uid, occurrence in the calendar zone)` — datetime equality, so by exact
instant for aware keys and never across naive/aware — and build the output
record from the override's schedule when found, otherwise from the occurrence
instant plus the master's elapsed duration `e - s`.  `durationMinutes` is
`int(seconds / 60)` (truncation toward zero).  Returns `none` only when a
matched override misses DTSTART, which the first pass rules out. -/
def resolveOccurrence (calTz dtz : Timezone)
    (mods : List (String × PyDateTime × VComponent)) (uid summary : String)
    (s e o : Int) : Option Occ :=
  match lookupMods mods uid (.aware o) with
  | some m =>
    match p2span calTz m with
    | none => none
    | some (ms, me) =>
      some { summary := summary, startUtc := ms, endUtc := me,
             startLocal := dtz.toWall ms, endLocal := dtz.toWall me,
             durationMinutes := Int.tdiv (me - ms) 60,
             isRecurring := true, isModified := true, isSingle := false,
             calendarName := "" }
  | none =>
    let dur := e - s
    some { summary := summary, startUtc := o, endUtc := o + dur,
           startLocal := dtz.toWall o, endLocal := dtz.toWall (o + dur),
           durationMinutes := Int.tdiv dur 60,
           isRecurring := true, isModified := false, isSingle := false,
           calendarName := "" }

/-- Lines 171-271, one entry of `recurring_events`: recompute the span
(DURATION ignored), normalize the EXDATEs to UTC instants, expand the rule in
UTC over the UTC window, drop exception matches, and resolve each surviving
occurrence.  An unknown display zone raises inside the loop before anything is
appended, so the event then contributes nothing. -/
def expandMaster (db : TZDB) (calTz : Timezone) (tzName : String) (ws we : Int)
    (mods : List (String × PyDateTime × VComponent)) (uid : String)
    (c : VComponent) : List Occ :=
  match c.rrule, p2span calTz c, db tzName with
  | some r, some (s, e), some dtz =>
    let exs := c.exdates.map (localizeIfNaive calTz)
    let occs := ruleBetween r s ws we
    (exceptionFilter exs occs).filterMap
      (resolveOccurrence calTz dtz mods uid (c.summary.getD "Untitled Event") s e)
  | _, _, _ => []

/-- Lines 274-310, one entry of `single_events`: the second-pass span
(DURATION ignored), converted to the display zone.  `none` when the display
zone is unknown (the per-event handler swallows the error) or DTSTART is
missing (impossible for members of `single_events`). -/
def materializeSingle (db : TZDB) (calTz : Timezone) (tzName : String)
    (c : VComponent) : Option Occ :=
  match p2span calTz c, db tzName with
  | some (s, e), some dtz =>
    some { summary := c.summary.getD "Untitled Event", startUtc := s,
           endUtc := e, startLocal := dtz.toWall s, endLocal := dtz.toWall e,
           durationMinutes := Int.tdiv (e - s) 60,
           isRecurring := false, isModified := false, isSingle := true,
           calendarName := "" }
  | _, _ => none

/-- Lines 87-95: the window start.  With a parseable `start_date_str` it is the
calendar-zone localization of that date's midnight (given here as the wall
seconds of that midnight); otherwise `datetime.now(tz)`, supplied as the
explicit `now` instant. -/
def windowStartOf (calTz : Timezone) (startDate : Option Int) (now : Int) : Int :=
  match startDate with
  | some wallMidnight => calTz.localize wallMidnight
  | none => now

/-- `parse_calendar` after the calendar zone name is chosen (lines 87-312):
resolve the zone (an unknown name raises `UnknownTimeZoneError`, uncaught),
build the window, run both passes and return the recurring occurrences
followed by the single events. -/
def parseCalendarAux (db : TZDB) (calTzName : String) (cal : Cal)
    (startDate : Option Int) (daysAhead : Int) (tzName : String) (now : Int) :
    Except String (List Occ) :=
  match db calTzName with
  | none => .error calTzName
  | some calTz =>
    let ws := windowStartOf calTz startDate now
    let we := ws + 86400 * daysAhead
    let st := pass1 calTz ws we cal.events
    let recOccs := st.recurring.flatMap
      (fun p => expandMaster db calTz tzName ws we st.mods p.1 p.2)
    let singleOccs := st.singles.filterMap (materializeSingle db calTz tzName)
    .ok (recOccs ++ singleOccs)

/-- Lines 55-312, `parse_calendar`: an unreadable document is caught and
yields `[]` (lines 71-79); otherwise the calendar zone is
`cal.get('X-WR-TIMEZONE', timezone)` (line 82). -/
def parse_calendar (db : TZDB) (doc : Except String Cal)
    (startDate : Option Int) (daysAhead : Int) (tzName : String) (now : Int) :
    Except String (List Occ) :=
  match doc with
  | .error _ => .ok []
  | .ok cal => parseCalendarAux db (cal.xwrTimezone.getD tzName) cal
      startDate daysAhead tzName now

/-- One calendar source handed to `parse_multiple_calendars`: the document and
the caller-supplied calendar name. -/
structure CalSource where
  doc : Except String Cal
  name : String

/-- Line 333: stamp an event with its source's calendar name. -/
def stampName (n : String) (o : Occ) : Occ := { o with calendarName := n }

/-- Lines 326-334: run `parse_calendar` per source in order, stamp, and
concatenate.  An exception escaping `parse_calendar` propagates (there is no
handler around the loop). -/
def gatherSources (db : TZDB) (startDate : Option Int) (daysAhead : Int)
    (tzName : String) (now : Int) : List CalSource → Except String (List Occ)
  | [] => .ok []
  | src :: rest =>
    match parse_calendar db src.doc startDate daysAhead tzName now with
    | .error e => .error e
    | .ok evs =>
      match gatherSources db startDate daysAhead tzName now rest with
      | .error e => .error e
      | .ok restEvs => .ok (evs.map (stampName src.name) ++ restEvs)

/-- Line 337: Python's stable `list.sort(key=...)`; any stable sort computes
the same list, so core `List.mergeSort` (stable) models it. -/
def sortByStart (l : List Occ) : List Occ :=
  l.mergeSort (fun a b => decide (a.startUtc ≤ b.startUtc))

/-- Lines 314-338, `parse_multiple_calendars`. -/
def parse_multiple_calendars (db : TZDB) (sources : List CalSource)
    (startDate : Option Int) (daysAhead : Int) (tzName : String) (now : Int) :
    Except String (List Occ) :=
  match gatherSources db startDate daysAhead tzName now sources with
  | .error e => .error e
  | .ok all => .ok (sortByStart all)

/-! ### Concrete fixtures

Timezone database entries used by the concrete runs.  `nyTz` models
America/New_York in the weeks around the 2025 spring-forward transition
(2025-03-09 07:00 UTC = instant 1741503600; on the wall clock the gap starts
at 02:00 local = wall 1741485600): offset −5 h before, −4 h after. -/

/-- A database knowing only UTC. -/
def tzdbUTC : TZDB := fun n => if n = "UTC" then some utcTz else none

/-- America/New_York around March 2025: EST (−18000 s) before the 2025-03-09
spring-forward, EDT (−14400 s) after. -/
def nyTz : Timezone :=
  ⟨fun i => if i < 1741503600 then -18000 else -14400,
   fun w => if w < 1741485600 then -18000 else -14400⟩

/-- A database knowing America/New_York (as `nyTz`) and UTC. -/
def tzdbNY : TZDB :=
  fun n => if n = "America/New_York" then some nyTz else
           if n = "UTC" then some utcTz else none

/-- Bool-valued well-formedness of a component for the output passes: its
second-pass end is not before its second-pass start (vacuous without a
DTSTART). -/
def spanOk (calTz : Timezone) (c : VComponent) : Bool :=
  match p2span calTz c with
  | none => true
  | some (s, e) => s ≤ e

/-! Fixture components for the concrete runs. -/

/-- A component carrying a RECURRENCE-ID but no recurrence rule. -/
def ridOnly : VComponent :=
  { summary := some "Moved occurrence", uid := "team",
    dtstart := some (.aware 1700005000), dtend := some (.aware 1700008600),
    duration := none, rrule := none,
    recurrenceId := some (.aware 1700005000), exdates := [] }

/-- A daily series with an EXDATE exactly 60 seconds after its second
occurrence. -/
def exMaster : VComponent :=
  { summary := some "Daily", uid := "d",
    dtstart := some (.aware 1700000000), dtend := some (.aware 1700001800),
    duration := none, rrule := some .daily, recurrenceId := none,
    exdates := [.aware 1700086460] }

/-- The calendar holding `exMaster`. -/
def exCal : Cal := ⟨none, [exMaster]⟩

/-- A daily master series seeded at UTC instant 1700000000. -/
def ovMaster : VComponent :=
  { summary := some "Sync", uid := "sync",
    dtstart := some (.aware 1700000000), dtend := some (.aware 1700001800),
    duration := none, rrule := some .daily, recurrenceId := none, exdates := [] }

/-- An override for `ovMaster` whose RECURRENCE-ID instant (1700086430) is 30
seconds away from the generated second occurrence (1700086400).  It carries an
RRULE as well, so the code files it under `modifications`. -/
def ovStale : VComponent :=
  { summary := some "Sync (moved)", uid := "sync",
    dtstart := some (.aware 1700093600), dtend := some (.aware 1700095400),
    duration := none, rrule := some .daily,
    recurrenceId := some (.aware 1700086430), exdates := [] }

/-- An override whose RECURRENCE-ID exactly equals the generated second
occurrence instant. -/
def ovExact : VComponent :=
  { summary := some "Sync (moved)", uid := "sync",
    dtstart := some (.aware 1700093600), dtend := some (.aware 1700095400),
    duration := none, rrule := some .daily,
    recurrenceId := some (.aware 1700086400), exdates := [] }

/-- Calendar with the master series and the 30-second-offset override. -/
def ovCal : Cal := ⟨none, [ovMaster, ovStale]⟩

/-- The daily 09:00-America/New_York standup of the spec's daylight-saving
test: DTSTART naive 2025-03-05 09:00 (wall 1741165200), DTEND naive 10:00. -/
def dstMaster : VComponent :=
  { summary := some "Daily standup", uid := "standup",
    dtstart := some (.naive 1741165200), dtend := some (.naive 1741168800),
    duration := none, rrule := some .daily, recurrenceId := none, exdates := [] }

/-- Calendar declaring X-WR-TIMEZONE America/New_York with `dstMaster`. -/
def dstCal : Cal := ⟨some "America/New_York", [dstMaster]⟩

/-- A standalone event whose DTEND (1699996400) precedes its DTSTART
(1700000000). -/
def badSingle : VComponent :=
  { summary := some "Inverted", uid := "bad",
    dtstart := some (.aware 1700000000), dtend := some (.aware 1699996400),
    duration := none, rrule := none, recurrenceId := none, exdates := [] }

/-- Calendar holding `badSingle`. -/
def badCal : Cal := ⟨none, [badSingle]⟩

/-- A well-formed one-hour standalone event. -/
def okSingle : VComponent :=
  { summary := some "Checkup", uid := "ok1",
    dtstart := some (.aware 1700000000), dtend := some (.aware 1700003600),
    duration := none, rrule := none, recurrenceId := none, exdates := [] }

/-- Calendar holding `okSingle`. -/
def okCal : Cal := ⟨none, [okSingle]⟩

/-- The record `parse_calendar` produces for `okSingle`. -/
def okOcc : Occ :=
  { summary := "Checkup", startUtc := 1700000000, endUtc := 1700003600,
    startLocal := 1700000000, endLocal := 1700003600, durationMinutes := 60,
    isRecurring := false, isModified := false, isSingle := true,
    calendarName := "" }

/-- A standalone event with a 2-hour DURATION and no DTEND. -/
def durSingle : VComponent :=
  { summary := some "Focus block", uid := "focus",
    dtstart := some (.aware 1700000000), dtend := none,
    duration := some 7200, rrule := none, recurrenceId := none, exdates := [] }

/-- Calendar holding `durSingle`. -/
def durCal : Cal := ⟨none, [durSingle]⟩

/-- A calendar whose X-WR-TIMEZONE names a zone absent from the database. -/
def c8Bad : Cal := ⟨some "Mars/Olympus", []⟩

/-- A readable calendar in a known zone with one event. -/
def c8Good : Cal := ⟨some "UTC", [okSingle]⟩

/-- Source-A events for the merge fixture. -/
def c9a1 : VComponent :=
  { summary := some "a1", uid := "a1", dtstart := some (.aware 1700000000),
    dtend := some (.aware 1700001000), duration := none, rrule := none,
    recurrenceId := none, exdates := [] }

/-- Second source-A event, tied with `c9b2` on start. -/
def c9a2 : VComponent :=
  { summary := some "a2", uid := "a2", dtstart := some (.aware 1700020000),
    dtend := some (.aware 1700021000), duration := none, rrule := none,
    recurrenceId := none, exdates := [] }

/-- Source-B event interleaving between the two source-A events. -/
def c9b1 : VComponent :=
  { summary := some "b1", uid := "b1", dtstart := some (.aware 1700010000),
    dtend := some (.aware 1700011000), duration := none, rrule := none,
    recurrenceId := none, exdates := [] }

/-- Second source-B event, tied with `c9a2` on start. -/
def c9b2 : VComponent :=
  { summary := some "b2", uid := "b2", dtstart := some (.aware 1700020000),
    dtend := some (.aware 1700022000), duration := none, rrule := none,
    recurrenceId := none, exdates := [] }

/-- The two-source merge fixture: interleaved times, one tie across sources. -/
def c9Sources : List CalSource :=
  [⟨.ok ⟨none, [c9a1, c9a2]⟩, "Home"⟩, ⟨.ok ⟨none, [c9b1, c9b2]⟩, "Work"⟩]

/-- The stamped concatenation `gatherSources` produces for `c9Sources`. -/
def c9Join : List Occ :=
  [{ summary := "a1", startUtc := 1700000000, endUtc := 1700001000,
     startLocal := 1700000000, endLocal := 1700001000, durationMinutes := 16,
     isRecurring := false, isModified := false, isSingle := true,
     calendarName := "Home" },
   { summary := "a2", startUtc := 1700020000, endUtc := 1700021000,
     startLocal := 1700020000, endLocal := 1700021000, durationMinutes := 16,
     isRecurring := false, isModified := false, isSingle := true,
     calendarName := "Home" },
   { summary := "b1", startUtc := 1700010000, endUtc := 1700011000,
     startLocal := 1700010000, endLocal := 1700011000, durationMinutes := 16,
     isRecurring := false, isModified := false, isSingle := true,
     calendarName := "Work" },
   { summary := "b2", startUtc := 1700020000, endUtc := 1700022000,
     startLocal := 1700020000, endLocal := 1700022000, durationMinutes := 33,
     isRecurring := false, isModified := false, isSingle := true,
     calendarName := "Work" }]

/-! ### Supporting lemmas about the first pass -/

/-- One classification step leaves `singles` unchanged except for appending
the component exactly when `standaloneKeep` holds. -/
theorem classify1_singles (calTz : Timezone) (ws we : Int) (st : Pass1State)
    (c : VComponent) :
    (classify1 calTz ws we st c).singles =
      st.singles ++ (if standaloneKeep calTz ws we c then [c] else []) := by
  unfold classify1 standaloneKeep
  cases hspan : p1span calTz c with
  | none => simp
  | some se =>
    obtain ⟨s, e⟩ := se
    cases hr : c.rrule with
    | none =>
      by_cases hw : inWindow ws we s e <;> simp [hw, Option.isNone]
    | some r =>
      cases hrid : c.recurrenceId <;> simp [Option.isNone]

/-- The first pass accumulates `singles` as a filter over the components. -/
theorem pass1Go_singles (calTz : Timezone) (ws we : Int) :
    ∀ (cs : List VComponent) (st : Pass1State),
      (pass1Go calTz ws we st cs).singles =
        st.singles ++ cs.filter (standaloneKeep calTz ws we)
  | [], st => by simp [pass1Go]
  | c :: cs, st => by
    rw [pass1Go, pass1Go_singles calTz ws we cs, classify1_singles,
      List.filter_cons]
    by_cases h : standaloneKeep calTz ws we c <;> simp [h]

/-- `single_events` is exactly the window-filtered list of the non-recurring
components with a DTSTART, in document order. -/
theorem pass1_singles (calTz : Timezone) (ws we : Int)
    (comps : List VComponent) :
    (pass1 calTz ws we comps).singles =
      comps.filter (standaloneKeep calTz ws we) := by
  rw [pass1, pass1Go_singles]
  rfl

/-- Membership after a Python-dict style update. -/
theorem mem_updateAssoc {l : List (String × VComponent)} {k : String}
    {v : VComponent} {x : String × VComponent} (h : x ∈ updateAssoc l k v) :
    x ∈ l ∨ x = (k, v) := by
  unfold updateAssoc at h
  split at h
  · obtain ⟨y, hy, hxy⟩ := List.mem_map.mp h
    split at hxy
    · exact Or.inr hxy.symm
    · exact Or.inl (hxy ▸ hy)
  · rcases List.mem_append.mp h with h' | h'
    · exact Or.inl h'
    · exact Or.inr (by simpa using h')

/-- Membership after a modification-dict update. -/
theorem mem_updateMods {l : List (String × PyDateTime × VComponent)}
    {u : String} {k : PyDateTime} {v : VComponent}
    {x : String × PyDateTime × VComponent} (h : x ∈ updateMods l u k v) :
    x ∈ l ∨ x = (u, k, v) := by
  unfold updateMods at h
  split at h
  · obtain ⟨y, hy, hxy⟩ := List.mem_map.mp h
    split at hxy
    · exact Or.inr hxy.symm
    · exact Or.inl (hxy ▸ hy)
  · rcases List.mem_append.mp h with h' | h'
    · exact Or.inl h'
    · exact Or.inr (by simpa using h')

/-- A classification step adds to `recurring_events` only the component
itself, keyed by its uid. -/
theorem classify1_recurring_mem {calTz : Timezone} {ws we : Int}
    {st : Pass1State} {c : VComponent} {x : String × VComponent}
    (h : x ∈ (classify1 calTz ws we st c).recurring) :
    x ∈ st.recurring ∨ x = (c.uid, c) := by
  unfold classify1 at h
  split at h
  · exact Or.inl h
  · split at h
    · split at h
      · exact Or.inl h
      · exact mem_updateAssoc h
    · split at h <;> exact Or.inl h

/-- A classification step adds to `modifications` only the component itself,
keyed by its uid and raw recurrence-id. -/
theorem classify1_mods_mem {calTz : Timezone} {ws we : Int} {st : Pass1State}
    {c : VComponent} {x : String × PyDateTime × VComponent}
    (h : x ∈ (classify1 calTz ws we st c).mods) :
    x ∈ st.mods ∨ ∃ rid, c.recurrenceId = some rid ∧ x = (c.uid, rid, c) := by
  unfold classify1 at h
  split at h
  · exact Or.inl h
  · split at h
    · split at h
      · rename_i rid hrid
        rcases mem_updateMods h with h' | h'
        · exact Or.inl h'
        · exact Or.inr ⟨rid, hrid, h'⟩
      · exact Or.inl h
    · split at h <;> exact Or.inl h

/-- Every entry of `recurring_events` after the first pass is one of the
processed components, keyed by its uid. -/
theorem pass1Go_recurring_mem (calTz : Timezone) (ws we : Int) :
    ∀ (cs : List VComponent) (st : Pass1State) (x : String × VComponent),
      x ∈ (pass1Go calTz ws we st cs).recurring →
        x ∈ st.recurring ∨ ∃ c ∈ cs, x = (c.uid, c)
  | [], _, _, h => Or.inl h
  | c :: cs, st, x, h => by
    rcases pass1Go_recurring_mem calTz ws we cs _ x h with h' | ⟨c', hc', hx⟩
    · rcases classify1_recurring_mem h' with h'' | h''
      · exact Or.inl h''
      · exact Or.inr ⟨c, List.mem_cons_self .., h''⟩
    · exact Or.inr ⟨c', List.mem_cons_of_mem _ hc', hx⟩

/-- Every entry of `modifications` after the first pass comes from a processed
component carrying that recurrence-id. -/
theorem pass1Go_mods_mem (calTz : Timezone) (ws we : Int) :
    ∀ (cs : List VComponent) (st : Pass1State)
      (x : String × PyDateTime × VComponent),
      x ∈ (pass1Go calTz ws we st cs).mods →
        x ∈ st.mods ∨
          ∃ c ∈ cs, ∃ rid, c.recurrenceId = some rid ∧ x = (c.uid, rid, c)
  | [], _, _, h => Or.inl h
  | c :: cs, st, x, h => by
    rcases pass1Go_mods_mem calTz ws we cs _ x h with h' | ⟨c', hc', hx⟩
    · rcases classify1_mods_mem h' with h'' | ⟨rid, hrid, hx⟩
      · exact Or.inl h''
      · exact Or.inr ⟨c, List.mem_cons_self .., rid, hrid, hx⟩
    · exact Or.inr ⟨c', List.mem_cons_of_mem _ hc', hx⟩

/-! ### Supporting lemmas about the daily rule evaluator -/

/-- Characterization of the daily expansion: exactly the instants
`seed + 86400·k` inside the inclusive window. -/
theorem mem_dailyBetween {seed a b t : Int} :
    t ∈ dailyBetween seed a b ↔
      (∃ k : ℕ, t = seed + 86400 * (k : Int)) ∧ a ≤ t ∧ t ≤ b := by
  constructor
  · intro h
    rw [dailyBetween, List.mem_filter] at h
    obtain ⟨hmem, hab⟩ := h
    obtain ⟨k, _, rfl⟩ := List.mem_map.mp hmem
    simp only [Bool.and_eq_true, decide_eq_true_eq] at hab
    exact ⟨⟨k, rfl⟩, hab.1, hab.2⟩
  · rintro ⟨⟨k, rfl⟩, h1, h2⟩
    rw [dailyBetween, List.mem_filter]
    refine ⟨List.mem_map.mpr ⟨k, List.mem_range.mpr ?_, rfl⟩, ?_⟩
    · have h3 : k ≤ (b - seed).toNat / 86400 := by
        rw [Nat.le_div_iff_mul_le (by norm_num)]
        omega
      omega
    · simp only [Bool.and_eq_true, decide_eq_true_eq]
      exact ⟨h1, h2⟩

/-- Two distinct instants of one daily expansion are at least a day apart. -/
theorem dailyBetween_sep {seed a b s t : Int} (hs : s ∈ dailyBetween seed a b)
    (ht : t ∈ dailyBetween seed a b) (hne : s ≠ t) :
    86400 ≤ (s - t).natAbs := by
  obtain ⟨⟨j, hj⟩, -, -⟩ := mem_dailyBetween.mp hs
  obtain ⟨⟨k, hk⟩, -, -⟩ := mem_dailyBetween.mp ht
  omega

/-- A daily expansion has no duplicate instants. -/
theorem dailyBetween_nodup (seed a b : Int) : (dailyBetween seed a b).Nodup := by
  have hinj : Function.Injective (fun k : ℕ => seed + 86400 * (k : Int)) := by
    intro j k h
    simp only at h
    omega
  exact List.Nodup.filter _ ((List.nodup_range _).map hinj)

/-! ### Claim C2: event classification -/

/-- C2 is false as stated: a decoded VEVENT with a recurrence-id but no
recurrence rule does NOT become an Override.  The code checks RECURRENCE-ID
only inside the RRULE branch (lines 145-149), so `ridOnly` lands in
`single_events` and `modifications` stays empty. -/
theorem recurrenceId_without_rrule_not_override :
    ridOnly.recurrenceId = some (.aware 1700005000) ∧ ridOnly.rrule = none ∧
      pass1 utcTz 1700000000 1700259200 [ridOnly] =
        { recurring := [], mods := [], singles := [ridOnly] } :=
  ⟨rfl, rfl, rfl⟩

/-- C2 (amended): a component without DTSTART is skipped; with a recurrence
rule AND a recurrence-id it becomes an Override keyed by (uid, recurrenceId);
with a rule and no recurrence-id a MasterSeries; withOUT a rule it is treated
as a standalone event (window-filtered) regardless of any recurrence-id. -/
theorem classification_trichotomy (calTz : Timezone) (ws we : Int)
    (st : Pass1State) (c : VComponent) :
    (c.dtstart = none → classify1 calTz ws we st c = st)
    ∧ (∀ s e, p1span calTz c = some (s, e) →
        (∀ r rid, c.rrule = some r → c.recurrenceId = some rid →
            classify1 calTz ws we st c =
              { st with mods := updateMods st.mods c.uid rid c })
        ∧ (∀ r, c.rrule = some r → c.recurrenceId = none →
            classify1 calTz ws we st c =
              { st with recurring := updateAssoc st.recurring c.uid c })
        ∧ (c.rrule = none →
            classify1 calTz ws we st c =
              if inWindow ws we s e then
                { st with singles := st.singles ++ [c] }
              else st)) := by
  constructor
  · intro h
    simp [classify1, p1span, h]
  · intro s e hp
    refine ⟨?_, ?_, ?_⟩
    · intro r rid hr hrid
      simp [classify1, hp, hr, hrid]
    · intro r hr hrid
      simp [classify1, hp, hr, hrid]
    · intro hr
      simp [classify1, hp, hr]

/-- Witness for `classification_trichotomy`: the rule-less `ridOnly` component
goes to `single_events`, not `modifications`. -/
theorem classification_trichotomy_witness :
    classify1 utcTz 1700000000 1700259200 ⟨[], [], []⟩ ridOnly =
      (if inWindow 1700000000 1700259200 1700005000 1700008600 then
        { Pass1State.mk [] [] [] with singles := [] ++ [ridOnly] }
      else ⟨[], [], []⟩) :=
  ((classification_trichotomy utcTz 1700000000 1700259200 ⟨[], [], []⟩
    ridOnly).2 1700005000 1700008600 (by decide)).2.2 (by decide)

/-! ### Claim C4: standalone window filter -/

/-- C4: a non-recurring component with a DTSTART is kept in `single_events`
iff its first-pass start lies in `[ws, we)`, or its first-pass end lies in
`[ws, we)`, or it spans the whole window; and each kept component
materializes into exactly one output record when the display zone resolves. -/
theorem standalone_window_filter (calTz : Timezone) (ws we : Int)
    (comps : List VComponent) :
    ((pass1 calTz ws we comps).singles =
        comps.filter (standaloneKeep calTz ws we))
    ∧ (∀ c s e, c.rrule = none → p1span calTz c = some (s, e) →
        (c ∈ (pass1 calTz ws we comps).singles ↔
          c ∈ comps ∧
            ((ws ≤ s ∧ s < we) ∨ (ws ≤ e ∧ e < we) ∨ (s ≤ ws ∧ we ≤ e))))
    ∧ (∀ (db : TZDB) (tzName : String) (dtz : Timezone),
        db tzName = some dtz →
        ∀ c ∈ (pass1 calTz ws we comps).singles,
          ∃ r, materializeSingle db calTz tzName c = some r) := by
  refine ⟨pass1_singles calTz ws we comps, ?_, ?_⟩
  · intro c s e hr hp
    rw [pass1_singles, List.mem_filter]
    constructor
    · rintro ⟨hc, hk⟩
      refine ⟨hc, ?_⟩
      unfold standaloneKeep at hk
      rw [hp, hr] at hk
      simpa [inWindow, or_assoc] using hk
    · rintro ⟨hc, hw⟩
      refine ⟨hc, ?_⟩
      unfold standaloneKeep
      rw [hp, hr]
      simpa [inWindow, or_assoc] using hw
  · intro db tzName dtz hdb c hc
    rw [pass1_singles, List.mem_filter] at hc
    have hk := hc.2
    unfold standaloneKeep at hk
    cases hds : c.dtstart with
    | none => rw [p1span, hds] at hk; simp at hk
    | some ds0 =>
      unfold materializeSingle p2span
      rw [hds, hdb]
      exact ⟨_, rfl⟩

/-- Witness for `standalone_window_filter`: `ridOnly` starts inside the
window and is kept; its record materializes. -/
theorem standalone_window_filter_witness :
    (ridOnly ∈ (pass1 utcTz 1700000000 1700259200 [ridOnly]).singles ↔
      ridOnly ∈ [ridOnly] ∧
        (((1700000000 : Int) ≤ 1700005000 ∧ (1700005000 : Int) < 1700259200) ∨
         ((1700000000 : Int) ≤ 1700008600 ∧ (1700008600 : Int) < 1700259200) ∨
         ((1700005000 : Int) ≤ 1700000000 ∧ (1700259200 : Int) ≤ 1700008600))) :=
  (standalone_window_filter utcTz 1700000000 1700259200 [ridOnly]).2.1
    ridOnly 1700005000 1700008600 (by decide) (by decide)

/-! ### Claim C3: exception filter tolerance -/

/-- C3 is false as stated: the code drops an instant only when it is STRICTLY
within 60 seconds of an exception date (line 215, `< 60`).  Here the EXDATE
is exactly 60 seconds from the second generated instant (within the claimed
inclusive tolerance), yet all seven occurrences survive. -/
theorem exdate_exactly_sixty_kept :
    (parse_calendar tzdbUTC (.ok exCal) (some 1700000000) 6 "UTC" 0).map
        (fun L => L.map Occ.startUtc) =
      .ok [1700000000, 1700086400, 1700172800, 1700259200, 1700345600,
           1700432000, 1700518400]
    ∧ ((1700086460 : Int) - 1700086400).natAbs ≤ 60 :=
  ⟨rfl, by decide⟩

/-- C3 (amended): the filter keeps exactly the instants NOT strictly within
60 seconds of any exception entry (an instant exactly 60 s away survives);
and an EXDATE equal to one instant of a daily expansion removes exactly that
occurrence, dropping the count by one and leaving the others unchanged. -/
theorem exception_filter_strict (exs occs : List Int) :
    (∀ o, o ∈ exceptionFilter exs occs ↔
        o ∈ occs ∧ ∀ x ∈ exs, 60 ≤ (o - x).natAbs)
    ∧ (∀ seed a b e, e ∈ dailyBetween seed a b →
        exceptionFilter [e] (dailyBetween seed a b) =
          (dailyBetween seed a b).erase e
        ∧ (exceptionFilter [e] (dailyBetween seed a b)).length + 1 =
            (dailyBetween seed a b).length) := by
  constructor
  · intro o
    unfold exceptionFilter
    rw [List.mem_filter]
    simp [List.any_eq_true, Nat.not_lt]
  · intro seed a b e he
    have hfe : exceptionFilter [e] (dailyBetween seed a b) =
        (dailyBetween seed a b).erase e := by
      rw [(dailyBetween_nodup seed a b).erase_eq_filter e]
      unfold exceptionFilter
      apply List.filter_congr
      intro o ho
      by_cases hoe : o = e
      · subst hoe
        simp
      · have hsep := dailyBetween_sep ho he hoe
        have h60 : ¬ (o - e).natAbs < 60 := by omega
        simp [h60, hoe]
    refine ⟨hfe, ?_⟩
    rw [hfe, List.length_erase_of_mem he]
    have : 0 < (dailyBetween seed a b).length := List.length_pos.mpr (List.ne_nil_of_mem he)
    omega

/-- Witness for `exception_filter_strict`: removing the second instant of a
four-instant daily expansion. -/
theorem exception_filter_strict_witness :
    exceptionFilter [1700086400] (dailyBetween 1700000000 1700000000 1700259200) =
      (dailyBetween 1700000000 1700000000 1700259200).erase 1700086400
    ∧ (exceptionFilter [1700086400]
        (dailyBetween 1700000000 1700000000 1700259200)).length + 1 =
      (dailyBetween 1700000000 1700000000 1700259200).length :=
  (exception_filter_strict [] []).2 1700000000 1700000000 1700259200
    1700086400 (by decide)

/-! ### Claim C1: override resolution -/

/-- A successful `modifications` lookup returns a stored component whose key
satisfies Python datetime equality with the probe. -/
theorem lookupMods_mem {mods : List (String × PyDateTime × VComponent)}
    {u : String} {k : PyDateTime} {m : VComponent}
    (h : lookupMods mods u k = some m) :
    ∃ rid, (u, rid, m) ∈ mods ∧ dtEq rid k = true := by
  unfold lookupMods at h
  cases hfind : mods.find? (fun e => e.1 = u && dtEq e.2.1 k) with
  | none => rw [hfind] at h; exact absurd h (by simp)
  | some ent =>
    rw [hfind] at h
    obtain ⟨u', rid, m'⟩ := ent
    have hp := List.find?_some hfind
    have hmem := List.mem_of_find?_eq_some hfind
    simp only [Bool.and_eq_true, decide_eq_true_eq] at hp
    obtain ⟨rfl, hdt⟩ := hp
    simp only [Option.map_some', Option.some.injEq] at h
    subst h
    exact ⟨rid, hmem, hdt⟩

/-- C1 is false as stated: there is no tolerance in override matching.  The
lookup on line 219 is an exact dict access: the override stored for
uid "sync" sits 30 seconds (≤ 60 s) from the generated instant 1700086400,
yet no occurrence is modified and the second occurrence keeps the master's
schedule. -/
theorem override_thirty_seconds_unmatched :
    (parse_calendar tzdbUTC (.ok ovCal) (some 1700000000) 3 "UTC" 0).map
        (fun L => L.map (fun o => (o.startUtc, o.endUtc, o.isModified))) =
      .ok [(1700000000, 1700001800, false), (1700086400, 1700088200, false),
           (1700172800, 1700174600, false), (1700259200, 1700261000, false)]
    ∧ (pass1 utcTz 1700000000 1700259200 ovCal.events).mods =
        [("sync", .aware 1700086430, ovStale)]
    ∧ ((1700086430 : Int) - 1700086400).natAbs ≤ 60
    ∧ lookupMods (pass1 utcTz 1700000000 1700259200 ovCal.events).mods "sync"
        (.aware 1700086400) = none :=
  ⟨rfl, rfl, by decide, rfl⟩

/-- C1 (amended): for each surviving instant the resolver looks an Override
up by `(uid, instant)` with EXACT Python datetime equality — an aware stored
recurrence-id matches iff its instant equals the generated instant, and a
naive stored recurrence-id never matches the aware probe; there is no
tolerance.  On a match the occurrence's entire start/end/duration comes from
the Override and `isModified = true`; otherwise the generated instant and the
master's elapsed duration are used and `isModified = false`. -/
theorem override_exact_resolution :
    (∀ a b : Int, dtEq (.aware a) (.aware b) = true ↔ a = b)
    ∧ (∀ w i : Int, dtEq (.naive w) (.aware i) = false)
    ∧ (∀ (calTz dtz : Timezone) (mods : List (String × PyDateTime × VComponent))
        (uid summary : String) (s e o ms me : Int) (m : VComponent),
        lookupMods mods uid (.aware o) = some m →
        p2span calTz m = some (ms, me) →
        resolveOccurrence calTz dtz mods uid summary s e o =
          some { summary := summary, startUtc := ms, endUtc := me,
                 startLocal := dtz.toWall ms, endLocal := dtz.toWall me,
                 durationMinutes := Int.tdiv (me - ms) 60,
                 isRecurring := true, isModified := true, isSingle := false,
                 calendarName := "" })
    ∧ (∀ (calTz dtz : Timezone) (mods : List (String × PyDateTime × VComponent))
        (uid summary : String) (s e o : Int),
        lookupMods mods uid (.aware o) = none →
        resolveOccurrence calTz dtz mods uid summary s e o =
          some { summary := summary, startUtc := o, endUtc := o + (e - s),
                 startLocal := dtz.toWall o,
                 endLocal := dtz.toWall (o + (e - s)),
                 durationMinutes := Int.tdiv (e - s) 60,
                 isRecurring := true, isModified := false, isSingle := false,
                 calendarName := "" }) := by
  refine ⟨?_, ?_, ?_, ?_⟩
  · intro a b
    have hd : dtEq (.aware a) (.aware b) = decide (a = b) := rfl
    rw [hd, decide_eq_true_eq]
  · intro w i
    rfl
  · intro calTz dtz mods uid summary s e o ms me m hlk hsp
    unfold resolveOccurrence
    simp only [hlk, hsp]
  · intro calTz dtz mods uid summary s e o hlk
    unfold resolveOccurrence
    simp only [hlk]

/-- Witness for `override_exact_resolution`: an exactly matching override
replaces the whole schedule of the second generated occurrence. -/
theorem override_exact_resolution_witness :
    resolveOccurrence utcTz utcTz [("sync", .aware 1700086400, ovExact)]
        "sync" "Sync" 1700000000 1700001800 1700086400 =
      some { summary := "Sync", startUtc := 1700093600, endUtc := 1700095400,
             startLocal := utcTz.toWall 1700093600,
             endLocal := utcTz.toWall 1700095400,
             durationMinutes := Int.tdiv ((1700095400 : Int) - 1700093600) 60,
             isRecurring := true, isModified := true, isSingle := false,
             calendarName := "" } :=
  override_exact_resolution.2.2.1 utcTz utcTz
    [("sync", .aware 1700086400, ovExact)] "sync" "Sync"
    1700000000 1700001800 1700086400 1700093600 1700095400 ovExact rfl rfl

/-! ### Claim C5: elapsed duration across daylight saving -/

/-- C5 is false as stated: the rule is expanded at fixed UTC instants
(lines 204-210), so past the 2025-03-09 spring-forward the daily occurrence
stays at 14:00 UTC and its local wall time reads 10:00 (second 36000 of
2025-03-09, whose local midnight is wall 1741478400), not the 09:00 the claim
asserts; no occurrence that day starts at local 09:00 (wall 1741510800). -/
theorem dst_local_time_shifts :
    (parse_calendar tzdbNY (.ok dstCal) (some 1741132800) 7
          "America/New_York" 0).map
        (fun L => L.map (fun o => (o.startUtc, o.startLocal))) =
      .ok [(1741183200, 1741165200), (1741269600, 1741251600),
           (1741356000, 1741338000), (1741442400, 1741424400),
           (1741528800, 1741514400), (1741615200, 1741600800),
           (1741701600, 1741687200)]
    ∧ (1741514400 : Int) - 1741478400 = 36000
    ∧ (1741510800 : Int) - 1741478400 = 32400
    ∧ (parse_calendar tzdbNY (.ok dstCal) (some 1741132800) 7
          "America/New_York" 0).map
        (fun L => decide ((1741510800 : Int) ∈ L.map Occ.startLocal)) =
      .ok false :=
  ⟨rfl, rfl, rfl, rfl⟩

/-- C5 (amended): an occurrence with no matching Override keeps the master's
elapsed (UTC) duration `e − s` applied at the generated instant; across the
spring-forward the daily series keeps its UTC clock time, so every occurrence
of the 09:00-local fixture still lasts 3600 s but the 2025-03-09 one reads
10:00 local (wall 1741514400), the wall-clock offset having changed. -/
theorem duration_preserved_without_override :
    (∀ (calTz dtz : Timezone) (mods : List (String × PyDateTime × VComponent))
        (uid summary : String) (s e o : Int),
        lookupMods mods uid (.aware o) = none →
        ∃ r, resolveOccurrence calTz dtz mods uid summary s e o = some r
          ∧ r.startUtc = o ∧ r.endUtc - r.startUtc = e - s
          ∧ r.isModified = false)
    ∧ (parse_calendar tzdbNY (.ok dstCal) (some 1741132800) 7
          "America/New_York" 0).map
        (fun L => L.map (fun o => (o.endUtc - o.startUtc, o.startLocal))) =
      .ok [(3600, 1741165200), (3600, 1741251600), (3600, 1741338000),
           (3600, 1741424400), (3600, 1741514400), (3600, 1741600800),
           (3600, 1741687200)] := by
  constructor
  · intro calTz dtz mods uid summary s e o h
    have hr : resolveOccurrence calTz dtz mods uid summary s e o =
        some { summary := summary, startUtc := o, endUtc := o + (e - s),
               startLocal := dtz.toWall o,
               endLocal := dtz.toWall (o + (e - s)),
               durationMinutes := Int.tdiv (e - s) 60,
               isRecurring := true, isModified := false, isSingle := false,
               calendarName := "" } := by
      unfold resolveOccurrence
      simp only [h]
    refine ⟨_, hr, rfl, ?_, rfl⟩
    show (o + (e - s)) - o = e - s
    omega
  · rfl

/-- Witness for `duration_preserved_without_override`: with no override
stored at all, the occurrence starts at the generated instant and keeps the
master's elapsed duration. -/
theorem duration_preserved_without_override_witness :
    ∃ r, resolveOccurrence utcTz utcTz [] "sync" "Sync"
        1700000000 1700001800 1700086400 = some r
      ∧ r.startUtc = 1700086400
      ∧ r.endUtc - r.startUtc = (1700001800 : Int) - 1700000000
      ∧ r.isModified = false :=
  duration_preserved_without_override.1 utcTz utcTz [] "sync" "Sync"
    1700000000 1700001800 1700086400 rfl

/-! ### Claim C6: occurrence end never before start -/

/-- C6 is false as stated: nothing in the code orders end after start.  A
standalone component whose DTEND precedes its DTSTART yields an output record
with `end_utc` one hour before `start_utc`. -/
theorem end_before_start_possible :
    (parse_calendar tzdbUTC (.ok badCal) (some 1699990000) 2 "UTC" 0).map
        (fun L => L.map (fun o => (o.startUtc, o.endUtc))) =
      .ok [(1700000000, 1699996400)]
    ∧ (1699996400 : Int) < 1700000000 :=
  ⟨rfl, by decide⟩

/-- Helper: a resolved occurrence respects `start ≤ end` provided the
master's span does and every stored override's span does. -/
theorem resolveOccurrence_bound {calTz dtz : Timezone}
    {mods : List (String × PyDateTime × VComponent)} {uid summary : String}
    {s e a : Int} {o : Occ}
    (hres : resolveOccurrence calTz dtz mods uid summary s e a = some o)
    (hse : s ≤ e)
    (hmods : ∀ x ∈ mods, spanOk calTz x.2.2 = true) :
    o.startUtc ≤ o.endUtc := by
  unfold resolveOccurrence at hres
  cases hlk : lookupMods mods uid (.aware a) with
  | none =>
    simp only [hlk, Option.some.injEq] at hres
    subst hres
    show a ≤ a + (e - s)
    omega
  | some m =>
    simp only [hlk] at hres
    cases hsp : p2span calTz m with
    | none => rw [hsp] at hres; simp at hres
    | some se2 =>
      obtain ⟨ms, me⟩ := se2
      simp only [hsp, Option.some.injEq] at hres
      subst hres
      obtain ⟨rid, hmem, -⟩ := lookupMods_mem hlk
      have hok : spanOk calTz m = true := hmods _ hmem
      unfold spanOk at hok
      rw [hsp] at hok
      show ms ≤ me
      simpa using hok

/-- Helper: a materialized single event respects `start ≤ end` when its span
does. -/
theorem materializeSingle_bound {db : TZDB} {calTz : Timezone}
    {tzName : String} {c : VComponent} {o : Occ}
    (h : materializeSingle db calTz tzName c = some o)
    (hc : spanOk calTz c = true) :
    o.startUtc ≤ o.endUtc := by
  unfold materializeSingle at h
  cases hsp : p2span calTz c with
  | none =>
    cases hdb : db tzName <;> (rw [hsp, hdb] at h; simp at h)
  | some se2 =>
    obtain ⟨s, e⟩ := se2
    cases hdb : db tzName with
    | none => rw [hsp, hdb] at h; simp at h
    | some dtz =>
      simp only [hsp, hdb, Option.some.injEq] at h
      subst h
      unfold spanOk at hc
      rw [hsp] at hc
      show s ≤ e
      simpa using hc

/-- Helper: every occurrence a master series expands to respects
`start ≤ end` under the same hypotheses. -/
theorem expandMaster_bound {db : TZDB} {calTz : Timezone} {tzName : String}
    {ws we : Int} {mods : List (String × PyDateTime × VComponent)}
    {uid : String} {c : VComponent} {o : Occ}
    (ho : o ∈ expandMaster db calTz tzName ws we mods uid c)
    (hc : spanOk calTz c = true)
    (hmods : ∀ x ∈ mods, spanOk calTz x.2.2 = true) :
    o.startUtc ≤ o.endUtc := by
  unfold expandMaster at ho
  split at ho
  · rename_i r s e dtz hr hsp hdb
    obtain ⟨a, ha, hres⟩ := List.mem_filterMap.mp ho
    have hse : s ≤ e := by
      unfold spanOk at hc
      rw [hsp] at hc
      simpa using hc
    exact resolveOccurrence_bound hres hse hmods
  · simp at ho

/-- C6 (amended): provided every component's derived span (DTEND, or the raw
DTSTART plus the 1-hour default) has its end not before its start, every
output record of `parse_calendar` has `start_utc ≤ end_utc`; the code itself
enforces nothing, so a component with DTEND before DTSTART violates the
original claim. -/
theorem occurrence_end_not_before_start (db : TZDB) (cal : Cal)
    (sd : Option Int) (da : Int) (tz : String) (now : Int) (calTz : Timezone)
    (L : List Occ)
    (hdb : db (cal.xwrTimezone.getD tz) = some calTz)
    (hwf : ∀ c ∈ cal.events, spanOk calTz c = true)
    (hL : parse_calendar db (.ok cal) sd da tz now = .ok L) :
    ∀ o ∈ L, o.startUtc ≤ o.endUtc := by
  intro o ho
  unfold parse_calendar parseCalendarAux at hL
  simp only [hdb, Except.ok.injEq] at hL
  subst hL
  have hmods : ∀ x ∈ (pass1 calTz
      (windowStartOf calTz sd now)
      (windowStartOf calTz sd now + 86400 * da) cal.events).mods,
      spanOk calTz x.2.2 = true := by
    intro x hx
    rcases pass1Go_mods_mem calTz _ _ cal.events ⟨[], [], []⟩ x hx with
      h0 | ⟨c, hc, rid, -, hx'⟩
    · simp at h0
    · subst hx'
      exact hwf c hc
  rcases List.mem_append.mp ho with hl | hr
  · obtain ⟨p, hp, hoe⟩ := List.mem_flatMap.mp hl
    rcases pass1Go_recurring_mem calTz _ _ cal.events ⟨[], [], []⟩ p hp with
      h0 | ⟨c, hc, hp'⟩
    · simp at h0
    · subst hp'
      exact expandMaster_bound hoe (hwf c hc) hmods
  · obtain ⟨c, hcs, hcm⟩ := List.mem_filterMap.mp hr
    rw [pass1_singles, List.mem_filter] at hcs
    exact materializeSingle_bound hcm (hwf c hcs.1)

/-- Witness for `occurrence_end_not_before_start`: the well-formed
`okSingle` run, evaluated at its single output record. -/
theorem occurrence_end_not_before_start_witness :
    okOcc.startUtc ≤ okOcc.endUtc :=
  occurrence_end_not_before_start tzdbUTC okCal (some 1699990000) 2 "UTC" 0
    utcTz [okOcc] rfl (by decide) rfl okOcc (by decide)

/-! ### Claim C7: DURATION handling and the 1-hour default -/

/-- C7 describes the intended behaviour; the code contradicts it (and its own
first pass).  The first pass honours DURATION when DTEND is absent
(lines 131-133, `p1span`), but every output path recomputes the end as
DTSTART + 1 hour, ignoring DURATION (lines 179-180, 224-225, 280-281,
`p2span`): the 2-hour `durSingle` is emitted as a 1-hour event. -/
theorem duration_used_only_in_window_test :
    p1span utcTz durSingle = some (1700000000, 1700007200)
    ∧ p2span utcTz durSingle = some (1700000000, 1700003600)
    ∧ (parse_calendar tzdbUTC (.ok durCal) (some 1699990000) 2 "UTC" 0).map
        (fun L => L.map (fun o => (o.startUtc, o.endUtc))) =
      .ok [(1700000000, 1700003600)]
    ∧ (1700000000 : Int) + 7200 ≠ 1700003600 :=
  ⟨rfl, rfl, rfl, by decide⟩

/-! ### Claim C8: aggregator tolerance of per-source failures -/

/-- C8 is false as stated: `pytz.timezone` raises `UnknownTimeZoneError` (a
`KeyError` subclass, which the `except ValueError` on line 92 does not
catch), and `parse_multiple_calendars` has no handler: a batch containing one
source with an unknown X-WR-TIMEZONE fails entirely, even though the
remaining source alone yields one occurrence. -/
theorem unknown_timezone_fails_batch :
    parse_multiple_calendars tzdbUTC
        [⟨.ok c8Bad, "work"⟩, ⟨.ok c8Good, "home"⟩]
        (some 1699990000) 2 "UTC" 0 = .error "Mars/Olympus"
    ∧ (parse_calendar tzdbUTC (.ok c8Good) (some 1699990000) 2 "UTC" 0).map
        List.length = .ok 1 :=
  ⟨rfl, rfl⟩

/-- Helper: a source whose document is unreadable contributes nothing and is
transparent to the batch. -/
theorem gatherSources_skip_unreadable (db : TZDB) (sd : Option Int) (da : Int)
    (tz : String) (now : Int) (name msg : String) :
    ∀ (pre post : List CalSource),
      gatherSources db sd da tz now
          (pre ++ ⟨Except.error msg, name⟩ :: post) =
        gatherSources db sd da tz now (pre ++ post)
  | [], post => by
    cases hg : gatherSources db sd da tz now post with
    | error e => simp [gatherSources, parse_calendar, hg]
    | ok r => simp [gatherSources, parse_calendar, hg]
  | p :: pre, post => by
    have ih := gatherSources_skip_unreadable db sd da tz now name msg pre post
    simp only [List.cons_append]
    rw [gatherSources, gatherSources, ih]

/-- Helper: one member source whose parse raises makes the whole gather
raise. -/
theorem gatherSources_error_of_mem (db : TZDB) (sd : Option Int) (da : Int)
    (tz : String) (now : Int) :
    ∀ (sources : List CalSource) (src : CalSource) (e0 : String),
      src ∈ sources →
      parse_calendar db src.doc sd da tz now = .error e0 →
      ∃ e, gatherSources db sd da tz now sources = .error e
  | s :: rest, src, e0, hmem, herr => by
    rcases List.mem_cons.mp hmem with rfl | hmem'
    · exact ⟨e0, by simp [gatherSources, herr]⟩
    · cases hp : parse_calendar db s.doc sd da tz now with
      | error e1 => exact ⟨e1, by simp [gatherSources, hp]⟩
      | ok evs =>
        obtain ⟨e, hg⟩ :=
          gatherSources_error_of_mem db sd da tz now rest src e0 hmem' herr
        exact ⟨e, by simp [gatherSources, hp, hg]⟩

/-- C8 (amended): an unreadable document is caught inside `parse_calendar`
(that source yields `[]` and the batch result is unchanged), but an unknown
calendar-zone name raises out of `parse_calendar` and aborts the whole batch:
no merged result is produced. -/
theorem aggregator_config_failures :
    (∀ (db : TZDB) (msg : String) (sd : Option Int) (da : Int) (tz : String)
        (now : Int), parse_calendar db (.error msg) sd da tz now = .ok [])
    ∧ (∀ (db : TZDB) (sd : Option Int) (da : Int) (tz : String) (now : Int)
        (name msg : String) (pre post : List CalSource),
        parse_multiple_calendars db (pre ++ ⟨Except.error msg, name⟩ :: post)
            sd da tz now =
          parse_multiple_calendars db (pre ++ post) sd da tz now)
    ∧ (∀ (db : TZDB) (sd : Option Int) (da : Int) (tz : String) (now : Int)
        (sources : List CalSource) (src : CalSource) (cal : Cal),
        src ∈ sources → src.doc = .ok cal →
        db (cal.xwrTimezone.getD tz) = none →
        ∃ e, parse_multiple_calendars db sources sd da tz now = .error e) := by
  refine ⟨fun _ _ _ _ _ _ => rfl, ?_, ?_⟩
  · intro db sd da tz now name msg pre post
    unfold parse_multiple_calendars
    rw [gatherSources_skip_unreadable]
  · intro db sd da tz now sources src cal hmem hdoc hdb
    have herr : parse_calendar db src.doc sd da tz now =
        .error (cal.xwrTimezone.getD tz) := by
      rw [hdoc]
      unfold parse_calendar parseCalendarAux
      simp only [hdb]
    obtain ⟨e, hg⟩ :=
      gatherSources_error_of_mem db sd da tz now sources src _ hmem herr
    exact ⟨e, by unfold parse_multiple_calendars; rw [hg]⟩

/-- Witness for `aggregator_config_failures`: an unreadable source is
transparent; the unknown-zone source fails the two-source batch. -/
theorem aggregator_config_failures_witness :
    parse_multiple_calendars tzdbUTC
        ([] ++ ⟨Except.error "io error", "broken"⟩ :: [⟨.ok c8Good, "home"⟩])
        (some 1699990000) 2 "UTC" 0 =
      parse_multiple_calendars tzdbUTC ([] ++ [⟨.ok c8Good, "home"⟩])
        (some 1699990000) 2 "UTC" 0
    ∧ ∃ e, parse_multiple_calendars tzdbUTC
        [⟨.ok c8Bad, "work"⟩, ⟨.ok c8Good, "home"⟩]
        (some 1699990000) 2 "UTC" 0 = .error e :=
  ⟨aggregator_config_failures.2.1 tzdbUTC (some 1699990000) 2 "UTC" 0
      "broken" "io error" [] [⟨.ok c8Good, "home"⟩],
   aggregator_config_failures.2.2 tzdbUTC (some 1699990000) 2 "UTC" 0
      [⟨.ok c8Bad, "work"⟩, ⟨.ok c8Good, "home"⟩] ⟨.ok c8Bad, "work"⟩ c8Bad
      (List.mem_cons_self ..) rfl rfl⟩

/-! ### Claim C9: merged, stamped, stable-sorted output -/

/-- Helper: the merged list is non-decreasing in `startUtc`. -/
theorem sortByStart_sorted (l : List Occ) :
    (sortByStart l).Pairwise (fun a b => a.startUtc ≤ b.startUtc) := by
  unfold sortByStart
  exact (List.sorted_mergeSort
      (fun a b c hab hbc => by
        simp only [decide_eq_true_eq] at hab hbc ⊢
        omega)
      (fun a b => by
        simp only [Bool.or_eq_true, decide_eq_true_eq]
        omega) l).imp
    (fun hab => by simpa using hab)

/-- Helper: the stable sort keeps records with equal `startUtc` in their
pre-sort (source concatenation) order. -/
theorem sortByStart_stable_filter (l : List Occ) (k : Int) :
    (sortByStart l).filter (fun o => decide (o.startUtc = k)) =
      l.filter (fun o => decide (o.startUtc = k)) := by
  have hsub : List.Sublist (l.filter (fun o => decide (o.startUtc = k)))
      (sortByStart l) := by
    unfold sortByStart
    apply List.sublist_mergeSort
    · intro a b c hab hbc
      simp only [decide_eq_true_eq] at hab hbc ⊢
      omega
    · intro a b
      simp only [Bool.or_eq_true, decide_eq_true_eq]
      omega
    · apply List.pairwise_of_forall_mem_list
      intro a ha b hb
      have ha' := (List.mem_filter.mp ha).2
      have hb' := (List.mem_filter.mp hb).2
      simp only [decide_eq_true_eq] at ha' hb' ⊢
      omega
    · exact List.filter_sublist l
  have hsub2 : List.Sublist (l.filter (fun o => decide (o.startUtc = k)))
      ((sortByStart l).filter (fun o => decide (o.startUtc = k))) := by
    have h := hsub.filter (fun o => decide (o.startUtc = k))
    rwa [List.filter_filter, (by
      funext o
      exact Bool.and_self _ : (fun o : Occ =>
        decide (o.startUtc = k) && decide (o.startUtc = k)) =
          fun o => decide (o.startUtc = k))] at h
  have hlen : ((sortByStart l).filter
      (fun o => decide (o.startUtc = k))).length =
      (l.filter (fun o => decide (o.startUtc = k))).length :=
    ((List.mergeSort_perm l _).filter _).length_eq
  exact (hsub2.eq_of_length hlen.symm).symm

/-- Helper: each gathered record is some source's output stamped with that
source's name. -/
theorem gatherSources_provenance (db : TZDB) (sd : Option Int) (da : Int)
    (tz : String) (now : Int) :
    ∀ (sources : List CalSource) (J : List Occ),
      gatherSources db sd da tz now sources = .ok J →
      ∀ o ∈ J, ∃ src ∈ sources, ∃ evs,
        parse_calendar db src.doc sd da tz now = .ok evs ∧
        ∃ o0 ∈ evs, o = stampName src.name o0
  | [], J, hJ, o, ho => by
    simp only [gatherSources, Except.ok.injEq] at hJ
    subst hJ
    simp at ho
  | s :: rest, J, hJ, o, ho => by
    rw [gatherSources] at hJ
    cases hp : parse_calendar db s.doc sd da tz now with
    | error e => rw [hp] at hJ; simp at hJ
    | ok evs =>
      rw [hp] at hJ
      cases hg : gatherSources db sd da tz now rest with
      | error e => rw [hg] at hJ; simp at hJ
      | ok r =>
        rw [hg] at hJ
        simp only [Except.ok.injEq] at hJ
        subst hJ
        rcases List.mem_append.mp ho with hl | hr
        · obtain ⟨o0, ho0, rfl⟩ := List.mem_map.mp hl
          exact ⟨s, List.mem_cons_self .., evs, hp, o0, ho0, rfl⟩
        · obtain ⟨src, hsrc, evs', hp', o0, ho0, rfl⟩ :=
            gatherSources_provenance db sd da tz now rest r hg o hr
          exact ⟨src, List.mem_cons_of_mem _ hsrc, evs', hp', o0, ho0, rfl⟩

/-- C9: the merged output is the stable ascending sort by `startUtc` of the
per-source outputs, each stamped with its caller-supplied source label and
concatenated in call order: the result is non-decreasing in `startUtc`, a
permutation of the stamped concatenation, ties keep concatenation order, and
every record's `calendarName` is the label of the source that produced it. -/
theorem merged_output_sorted_stable (db : TZDB) (sources : List CalSource)
    (sd : Option Int) (da : Int) (tz : String) (now : Int) (J : List Occ)
    (hJ : gatherSources db sd da tz now sources = .ok J) :
    parse_multiple_calendars db sources sd da tz now = .ok (sortByStart J)
    ∧ (sortByStart J).Pairwise (fun a b => a.startUtc ≤ b.startUtc)
    ∧ (sortByStart J).Perm J
    ∧ (∀ k : Int, (sortByStart J).filter (fun o => decide (o.startUtc = k)) =
        J.filter (fun o => decide (o.startUtc = k)))
    ∧ (∀ o ∈ sortByStart J, ∃ src ∈ sources, ∃ evs,
        parse_calendar db src.doc sd da tz now = .ok evs ∧
        ∃ o0 ∈ evs, o = stampName src.name o0 ∧ o.calendarName = src.name) := by
  refine ⟨?_, sortByStart_sorted J, ?_,
    fun k => sortByStart_stable_filter J k, ?_⟩
  · unfold parse_multiple_calendars
    rw [hJ]
  · exact List.mergeSort_perm J _
  · intro o ho
    have ho' : o ∈ J := by
      unfold sortByStart at ho
      exact List.mem_mergeSort.mp ho
    obtain ⟨src, hsrc, evs, hp, o0, ho0, rfl⟩ :=
      gatherSources_provenance db sd da tz now sources J hJ o ho'
    exact ⟨src, hsrc, evs, hp, o0, ho0, rfl, rfl⟩

/-- Witness for `merged_output_sorted_stable`: two sources with interleaved
times and one cross-source tie. -/
theorem merged_output_sorted_stable_witness :
    parse_multiple_calendars tzdbUTC c9Sources (some 1699990000) 2 "UTC" 0 =
      .ok (sortByStart c9Join)
    ∧ (sortByStart c9Join).Pairwise (fun a b => a.startUtc ≤ b.startUtc)
    ∧ (sortByStart c9Join).Perm c9Join
    ∧ (∀ k : Int, (sortByStart c9Join).filter
        (fun o => decide (o.startUtc = k)) =
          c9Join.filter (fun o => decide (o.startUtc = k)))
    ∧ (∀ o ∈ sortByStart c9Join, ∃ src ∈ c9Sources, ∃ evs,
        parse_calendar tzdbUTC src.doc (some 1699990000) 2 "UTC" 0 = .ok evs ∧
        ∃ o0 ∈ evs, o = stampName src.name o0 ∧ o.calendarName = src.name) :=
  merged_output_sorted_stable tzdbUTC c9Sources (some 1699990000) 2 "UTC" 0
    c9Join rfl

/-! ### Claim C10: X-WR-TIMEZONE fallback to the display zone -/

/-- C10: without an X-WR-TIMEZONE property the calendar default zone is the
caller-supplied display zone: the run equals one whose X-WR-TIMEZONE
explicitly names the display zone, the pipeline proceeds as
`parseCalendarAux` with that zone name, and — once the display zone name
resolves — the query window's start and every naive timestamp localize in
that very zone. -/
theorem xwr_absent_uses_display_zone (db : TZDB) (comps : List VComponent)
    (sd : Option Int) (da : Int) (tz : String) (now : Int) :
    parse_calendar db (.ok ⟨none, comps⟩) sd da tz now =
      parse_calendar db (.ok ⟨some tz, comps⟩) sd da tz now
    ∧ parse_calendar db (.ok ⟨none, comps⟩) sd da tz now =
      parseCalendarAux db tz ⟨none, comps⟩ sd da tz now
    ∧ (∀ dtz : Timezone, db tz = some dtz →
        (∀ w : Int, windowStartOf dtz (some w) now = dtz.localize w)
        ∧ (∀ w : Int, localizeIfNaive dtz (.naive w) = dtz.localize w)) :=
  ⟨rfl, rfl, fun _ _ => ⟨fun _ => rfl, fun _ => rfl⟩⟩

/-- Witness for `xwr_absent_uses_display_zone` at a concrete database, zone
and component list. -/
theorem xwr_absent_uses_display_zone_witness :
    parse_calendar tzdbUTC (.ok ⟨none, [okSingle]⟩) (some 1699990000) 2
        "UTC" 0 =
      parse_calendar tzdbUTC (.ok ⟨some "UTC", [okSingle]⟩) (some 1699990000) 2
        "UTC" 0
    ∧ (∀ w : Int, windowStartOf utcTz (some w) 0 = utcTz.localize w) :=
  ⟨(xwr_absent_uses_display_zone tzdbUTC [okSingle] (some 1699990000) 2
      "UTC" 0).1,
   ((xwr_absent_uses_display_zone tzdbUTC [okSingle] (some 1699990000) 2
      "UTC" 0).2.2 utcTz rfl).1⟩

end AICal
